import Mathlib

/-!
Verification of the TimeTracker on-premises server against its specification.

The definitions below are a shallow embedding of the server's TypeScript
sources: route handlers, the FMB relational storage adapter
(fmb-onprem/storage/fmb-storage.ts), the custom MS SQL session store, the
SAML authentication middleware and the configuration loader.  JavaScript
values that matter for control flow (undefined / null / truthiness) are
modelled explicitly, SQL tables are modelled as lists of rows, and the
millisecond clock and random id suffixes are passed as explicit parameters.
-/

/-- JavaScript runtime values as far as the server's control flow inspects
them (undefined, null, strings, numbers, booleans). -/
inductive JsVal where
  | undef
  | null
  | str (s : String)
  | num (n : Int)
  | bool (b : Bool)
  deriving DecidableEq, Repr

/-- JavaScript truthiness: undefined, null, the empty string, 0 and false
are falsy, everything else is truthy. -/
def truthy : JsVal → Bool
  | .undef => false
  | .null => false
  | .str s => s != ""
  | .num n => n != 0
  | .bool b => b

/-- Decimal digit list of a natural number, most significant digit first.
This is the rendering performed by the template literals of the storage
adapter when they interpolate the millisecond clock. -/
def natDigits (n : Nat) : List Char :=
  if n < 10 then [Nat.digitChar n]
  else natDigits (n / 10) ++ [Nat.digitChar (n % 10)]
termination_by n
decreasing_by exact Nat.div_lt_self (by omega) (by omega)

/-- Decimal string of a natural number, as produced by a JavaScript
template literal applied to a number such as the millisecond clock. -/
def natDecimal (n : Nat) : String := ⟨natDigits n⟩

/-- Numeric value of a decimal digit character. -/
def digitVal (c : Char) : Nat := c.toNat - 48

/-- Numeric value of a most-significant-first digit character list. -/
def digitsVal (l : List Char) : Nat :=
  l.foldl (fun a c => 10 * a + digitVal c) 0

/-! ### Authentication middleware (part_004, `isAuthenticated`, lines 190-248)

The middleware carries a development bypass that fabricates a fixed test
identity; the bypass is guarded by a check of `process.env.NODE_ENV`. -/

/-- Incoming request state as inspected by the middleware:
whether `req.isAuthenticated()` holds and whether `req.user` is set. -/
structure AuthRequest where
  isAuth : Bool
  hasUser : Bool
  deriving DecidableEq, Repr

/-- Outcome of the authentication middleware: the development bypass
(fixed test identity granted, next()), a normal pass-through to the route,
or a 401 rejection. -/
inductive AuthOutcome where
  | bypassNext
  | next
  | unauthorized
  deriving DecidableEq, Repr

/-- The `isAuthenticated` middleware of the SAML auth module with the
development bypass: when NODE_ENV is exactly the string development and
the request has no authenticated session or no user, the fixed test
identity is installed and the request proceeds; otherwise requests
without an authenticated session receive 401. -/
def fmbDevIsAuthenticated (nodeEnv : String) (r : AuthRequest) : AuthOutcome :=
  if nodeEnv = "development" ∧ (r.isAuth = false ∨ r.hasUser = false) then
    AuthOutcome.bypassNext
  else if r.isAuth = false ∨ r.hasUser = false then
    AuthOutcome.unauthorized
  else
    AuthOutcome.next

/-! ### Users and the admin role-update route (part_000, lines 1215-1275) -/

/-- A row of the users table (the columns the modelled routes consult). -/
structure UserRow where
  id : String
  email : String
  firstName : String
  lastName : String
  role : String
  deriving DecidableEq, Repr

/-- Storage getUser: first row whose id matches. -/
def getUser (users : List UserRow) (id : String) : Option UserRow :=
  users.find? (fun u => u.id == id)

/-- Storage getUserByEmail: first row whose email matches. -/
def getUserByEmail (users : List UserRow) (email : String) : Option UserRow :=
  users.find? (fun u => u.email == email)

/-- The role allow-list checked by the role-update route. -/
def validRoles : List String :=
  ["admin", "manager", "project_manager", "employee", "viewer"]

/-- Modelled from the spec: the development storage module
(server/storage.ts) is absent from the sources and the relational adapter
declares no updateUserRole; per the Storage Adapter contract the
operation sets the row's role and returns the updated user, or nothing
when the id does not resolve. -/
def updateUserRole (users : List UserRow) (id role : String) :
    List UserRow × Option UserRow :=
  match users.find? (fun u => u.id == id) with
  | none => (users, none)
  | some u =>
    let u' := { u with role := role }
    (users.map (fun v => if v.id == id then u' else v), some u')

/-- HTTP status plus the users table after the request. -/
structure RoleUpdateResponse where
  status : Nat
  users : List UserRow
  deriving DecidableEq, Repr

/-- The POST /api/admin/users/:userId/role handler: non-admin callers get
403; a missing or invalid role gets 400; an admin demoting their own
account gets 400; otherwise the role is updated (404 when the target id
does not resolve). -/
def adminUpdateUserRoleHandler (users : List UserRow)
    (currentUserId targetUserId : String) (role : Option String) :
    RoleUpdateResponse :=
  if ((getUser users currentUserId).map (fun u => u.role)) ≠ some "admin" then
    { status := 403, users := users }
  else
    match role with
    | none => { status := 400, users := users }
    | some r =>
      if r = "" then { status := 400, users := users }
      else if r ∉ validRoles then { status := 400, users := users }
      else if currentUserId = targetUserId ∧ r ≠ "admin" then
        { status := 400, users := users }
      else
        match updateUserRole users targetUserId r with
        | (users', some _) => { status := 200, users := users' }
        | (users', none) => { status := 404, users := users' }

/-! ### Project creation (part_000 lines 204-226, fmb-storage.ts
createProject, and the CHK_projects_dates constraint of the DB setup
script). ISO date strings are modelled by their day ordinals. -/

/-- The request payload fields of insertProjectSchema that the date
invariant concerns. -/
structure InsertProjectPayload where
  name : String
  status : Option String
  startDate : Option Int
  endDate : Option Int
  deriving DecidableEq, Repr

/-- A persisted project row (the modelled columns). -/
structure ProjectRow where
  id : String
  name : String
  status : String
  startDate : Option Int
  endDate : Option Int
  deriving DecidableEq, Repr

/-- Project status enumeration of insertProjectSchema. -/
def projectStatuses : List String := ["active", "inactive", "completed", "archived"]

/-- insertProjectSchema.parse restricted to the modelled fields: name must
be non-empty, status must lie in the enumeration and defaults to active;
startDate and endDate are optional and not compared with each other. -/
def insertProjectSchemaParse (p : InsertProjectPayload) :
    Option (String × String × Option Int × Option Int) :=
  if p.name = "" then none
  else
    match p.status with
    | none => some (p.name, "active", p.startDate, p.endDate)
    | some s =>
      if s ∈ projectStatuses then some (p.name, s, p.startDate, p.endDate)
      else none

/-- The CHK_projects_dates CHECK constraint of the projects table:
end_date IS NULL OR end_date >= start_date (a NULL start_date makes the
comparison unknown, which SQL CHECK accepts). -/
def chkProjectDates (startDate endDate : Option Int) : Bool :=
  match endDate with
  | none => true
  | some e =>
    match startDate with
    | none => true
    | some s => decide (s ≤ e)

/-- Id assigned by FmbStorage.createProject. -/
def fmbCreateProjectId (now : Nat) : String := "proj-" ++ natDecimal now

/-- INSERT INTO projects guarded by the CHECK constraint: the row is
appended when the constraint holds, otherwise the statement fails. -/
def dbInsertProject (db : List ProjectRow) (row : ProjectRow) :
    Option (List ProjectRow) :=
  if chkProjectDates row.startDate row.endDate then some (db ++ [row]) else none

/-- The POST /api/projects handler: role allow-list check (403), schema
validation (400 on ZodError), then createProject; a storage-layer failure
is caught by the generic handler and surfaces as 500. -/
def postProjectsHandler (userRole : String) (now : Nat) (db : List ProjectRow)
    (payload : InsertProjectPayload) : Nat × List ProjectRow :=
  if userRole ∉ ["admin", "project_manager"] then (403, db)
  else
    match insertProjectSchemaParse payload with
    | none => (400, db)
    | some parsed =>
      match dbInsertProject db
          ⟨fmbCreateProjectId now, parsed.1, parsed.2.1, parsed.2.2.1, parsed.2.2.2⟩ with
      | none => (500, db)
      | some db' => (201, db')

/-! ### Time entries: deletion route (part_000 lines 639-655) and creation
route (part_000 lines 581-613 with insertTimeEntrySchema of part_003). -/

/-- A row of the time_entries table (the modelled columns). -/
structure TimeEntryRow where
  id : String
  userId : String
  hours : Rat
  deriving DecidableEq, Repr

/-- FmbStorage.deleteTimeEntry: runs DELETE FROM time_entries WHERE id and
completes with no return value, i.e. the JavaScript undefined. -/
def fmbDeleteTimeEntry (db : List TimeEntryRow) (id : String) :
    List TimeEntryRow × JsVal :=
  (db.filter (fun r => r.id != id), JsVal.undef)

/-- The DELETE /api/time-entries/:id handler: calls deleteTimeEntry and
replies 404 when the returned value is falsy, 204 otherwise. -/
def deleteTimeEntryRoute (db : List TimeEntryRow) (id : String) :
    Nat × List TimeEntryRow :=
  let res := fmbDeleteTimeEntry db id
  if truthy res.2 = false then (404, res.1) else (204, res.1)

/-- The payload fields of insertTimeEntrySchema that the hours bound
concerns. -/
structure InsertTimeEntryPayload where
  userId : String
  hours : Rat
  duration : Rat
  date : String
  status : Option String
  deriving DecidableEq, Repr

/-- Time entry status enumeration of insertTimeEntrySchema. -/
def timeEntryStatuses : List String := ["draft", "submitted", "approved", "rejected"]

/-- insertTimeEntrySchema.parse restricted to the modelled fields:
userId non-empty, hours between 0 and 24 inclusive, duration at least 0,
date non-empty, status in the enumeration when present. -/
def insertTimeEntrySchemaCheck (p : InsertTimeEntryPayload) : Bool :=
  (p.userId != "") && decide ((0 : Rat) ≤ p.hours) && decide (p.hours ≤ 24) &&
    decide ((0 : Rat) ≤ p.duration) && (p.date != "") &&
    (match p.status with
     | none => true
     | some s => timeEntryStatuses.contains s)

/-- Id assigned by FmbStorage.createTimeEntry (millisecond clock plus a
random base-36 suffix). -/
def fmbCreateTimeEntryId (now : Nat) (rand : String) : String :=
  "te-" ++ natDecimal now ++ "-" ++ rand

/-- The POST /api/time-entries handler: schema validation failure yields
400 with no write; a valid payload is persisted with status 201. -/
def postTimeEntriesHandler (db : List TimeEntryRow) (now : Nat) (rand : String)
    (p : InsertTimeEntryPayload) : Nat × List TimeEntryRow :=
  if insertTimeEntrySchemaCheck p then
    (201, db ++ [⟨fmbCreateTimeEntryId now rand, p.userId, p.hours⟩])
  else (400, db)

/-! ### Custom MS SQL session store (part_000, CustomMSSQLStore.get) and
the expiry cleanup pass (part_006, cleanupExpiredSessions). -/

/-- A row of the sessions table: session id, serialized payload, nullable
expiry instant. -/
structure SessionRow where
  sid : String
  sess : String
  expires : Option Nat
  deriving DecidableEq, Repr

/-- Result delivered through the session store callback: a driver error,
the no-session result callback(null, null), or a found payload. -/
inductive SessionGetResult where
  | dbError
  | noSession
  | found (data : String)
  deriving DecidableEq, Repr

/-- The WHERE clause of the store's get query for one row:
expires IS NULL OR expires > GETDATE(). -/
def sessionNotExpired (now : Nat) (r : SessionRow) : Bool :=
  match r.expires with
  | none => true
  | some e => decide (now < e)

/-- CustomMSSQLStore.get: with no pool the callback receives an error;
otherwise the query selects the row by sid filtered by the expiry clause,
and an empty recordset is delivered as callback(null, null). -/
def sessionStoreGet (poolConnected : Bool) (table : List SessionRow) (now : Nat)
    (sid : String) : SessionGetResult :=
  if poolConnected = false then SessionGetResult.dbError
  else
    match table.find? (fun r => r.sid == sid && sessionNotExpired now r) with
    | none => SessionGetResult.noSession
    | some r => SessionGetResult.found r.sess

/-- The WHERE clause of the cleanup DELETE for one row:
expire < GETDATE(). -/
def sessionExpired (now : Nat) (r : SessionRow) : Bool :=
  match r.expires with
  | none => false
  | some e => decide (e < now)

/-- OptimizedSessionManager.cleanupExpiredSessions: with no pool nothing
happens; otherwise DELETE FROM sessions WHERE expire < GETDATE(), and the
number of deleted rows is reported. -/
def cleanupExpiredSessions (poolConnected : Bool) (table : List SessionRow)
    (now : Nat) : List SessionRow × Nat :=
  if poolConnected = false then (table, 0)
  else
    let remaining := table.filter (fun r => !(sessionExpired now r))
    (remaining, table.length - remaining.length)

/-! ### Partial update of a project (fmb-storage.ts updateProject,
lines 291-318). A stored row is modelled as a total map from column names
to values; the update builds one SET clause per defined payload entry. -/

/-- The camelCase to snake_case conversion applied to payload keys:
an underscore is inserted before every uppercase letter and the whole
string is lowercased. -/
def toSnakeCase (s : String) : String :=
  ⟨(s.data.flatMap (fun c => if c.isUpper then ['_', c] else [c])).map Char.toLower⟩

/-- A stored row as a total assignment of column names to values. -/
abbrev DbRow := String → JsVal

/-- One SET clause of an UPDATE statement. -/
def setColumn (row : DbRow) (k : String) (v : JsVal) : DbRow :=
  fun col => if col = k then v else row col

/-- FmbStorage.updateProject: iterate the payload entries in order,
skip entries whose value is undefined, convert each remaining key to
snake_case and set that column; when at least one entry is defined the
updated_at column is additionally set to the current instant, and when
none is the row is left entirely untouched. The updated row is returned
by the re-fetch. -/
def fmbUpdateProject (row : DbRow) (payload : List (String × JsVal))
    (now : JsVal) : DbRow :=
  let fields := payload.filter (fun kv => kv.2 != JsVal.undef)
  if fields.isEmpty then row
  else
    setColumn (fields.foldl (fun r kv => setColumn r (toSnakeCase kv.1) kv.2) row)
      "updated_at" now

/-! ### Configuration loader (part_005, validating loadFmbOnPremConfig,
lines 158-223). -/

/-- The process environment: a partial assignment of variable names. -/
abbrev Env := String → Option String

/-- JavaScript truthiness of an environment read: unset and empty are
falsy. -/
def envTruthy (env : Env) (v : String) : Bool :=
  match env v with
  | none => false
  | some s => s != ""

/-- The pattern env.X || default of the loader. -/
def envOr (env : Env) (v d : String) : String :=
  match env v with
  | none => d
  | some s => if s = "" then d else s

/-- The required-variable list of the validating loader. -/
def fmbRequiredVars : List String :=
  ["FMB_DB_SERVER", "FMB_DB_NAME", "FMB_DB_USER", "FMB_DB_PASSWORD",
   "FMB_SAML_ENTITY_ID", "FMB_SAML_SSO_URL", "FMB_SAML_CERTIFICATE",
   "FMB_SESSION_SECRET"]

/-- The configuration produced by the loader (the modelled fields). -/
structure FmbOnPremConfig where
  dbServer : String
  dbName : String
  dbUser : String
  dbPassword : String
  samlEntityId : String
  sessionSecret : String
  deriving DecidableEq, Repr

/-- createDefaultConfig: every field falls back to a safe development
default when its variable is unset or empty. -/
def createDefaultConfig (env : Env) : FmbOnPremConfig where
  dbServer := envOr env "FMB_DB_SERVER" "localhost"
  dbName := envOr env "FMB_DB_NAME" "timetracker"
  dbUser := envOr env "FMB_DB_USER" "sa"
  dbPassword := envOr env "FMB_DB_PASSWORD" "password"
  samlEntityId := envOr env "FMB_SAML_ENTITY_ID" "https://timetracker.fmb.com"
  sessionSecret :=
    envOr env "FMB_SESSION_SECRET" (envOr env "SESSION_SECRET" "dev-secret-key")

/-- The validating loadFmbOnPremConfig: during a build the defaults are
returned without validation; otherwise the required variables are
checked, and on any missing value the loader returns the defaults in
development mode and fails with an error naming the missing variables in
every other mode. -/
def loadFmbOnPremConfig (env : Env) : Except String FmbOnPremConfig :=
  if env "npm_lifecycle_event" = some "build" then
    Except.ok (createDefaultConfig env)
  else
    let missing := fmbRequiredVars.filter (fun v => !(envTruthy env v))
    if missing.isEmpty then
      Except.ok
        { dbServer := (env "FMB_DB_SERVER").getD ""
          dbName := (env "FMB_DB_NAME").getD ""
          dbUser := (env "FMB_DB_USER").getD ""
          dbPassword := (env "FMB_DB_PASSWORD").getD ""
          samlEntityId := envOr env "FMB_SAML_ENTITY_ID" "https://timetracker.fmb.com"
          sessionSecret := (env "FMB_SESSION_SECRET").getD "" }
    else if env "NODE_ENV" = some "development" then
      Except.ok (createDefaultConfig env)
    else
      Except.error
        ("Missing required FMB environment variables: " ++
          String.intercalate ", " missing)

/-! ### SAML verify callback and assertion-consumer flow
(fmb-onprem/auth/fmb-saml-auth.ts, the variant imported by
registerRoutes; verify callback lines 43-84, ACS handler lines 145-207)
together with FmbStorage.upsertUser (fmb-storage.ts lines 150-185). -/

/-- The identity fields extracted from a validated SAML assertion. -/
structure SamlProfile where
  nameID : String
  email : Option String
  firstName : Option String
  givenName : Option String
  lastName : Option String
  surname : Option String
  deriving DecidableEq, Repr

/-- The pattern a || b on optional JavaScript strings (empty is falsy). -/
def jsStrOr (v : Option String) (d : String) : String :=
  match v with
  | none => d
  | some s => if s = "" then d else s

/-- Id assigned by the insert branch of FmbStorage.upsertUser. -/
def fmbUpsertUserInsertId (now : Nat) : String := "user-" ++ natDecimal now

/-- FmbStorage.upsertUser: looked up by email; an existing row is updated
in place (names and role overwritten), a missing row is inserted with a
fresh clock-derived id. The persisted row is returned. -/
def fmbUpsertUser (users : List UserRow) (now : Nat) (u : UserRow) :
    List UserRow × UserRow :=
  match getUserByEmail users u.email with
  | some existing =>
    let updated := { existing with
      firstName := u.firstName, lastName := u.lastName, role := u.role }
    (users.map (fun v => if v.email == u.email then updated else v), updated)
  | none =>
    let newUser := { u with id := fmbUpsertUserInsertId now }
    (users ++ [newUser], newUser)

/-- The SAML strategy verify callback of fmb-saml-auth.ts: the email is
the asserted email or the name identifier, the name parts fall back to
the alternative assertion attributes or the email's local part, and the
user is upserted with the fixed default role string user. -/
def samlVerifyCallback (users : List UserRow) (now : Nat)
    (profile : SamlProfile) : List UserRow × UserRow :=
  let email := jsStrOr profile.email profile.nameID
  let firstName :=
    jsStrOr profile.firstName
      (jsStrOr profile.givenName (email.takeWhile (fun c => c != '@')))
  let lastName := jsStrOr profile.lastName (jsStrOr profile.surname "")
  fmbUpsertUser users now
    { id := email, email := email, firstName := firstName,
      lastName := lastName, role := "user" }

/-- The per-session authentication state written by the ACS handler. -/
structure SessionState where
  sid : Nat
  isAuthenticated : Bool
  userEmail : Option String
  deriving DecidableEq, Repr

/-- Outcome of a successful assertion-consumer callback: the users table,
the set of session ids the store still recognises, and the established
session. -/
structure AcsOutcome where
  users : List UserRow
  validSids : List Nat
  session : SessionState
  deriving Repr

/-- The /saml/acs success path: the verify callback runs, the session id
is regenerated (the previous id is destroyed and a fresh one issued),
the user is logged in and the session is marked authenticated. -/
def samlAcsCallback (users : List UserRow) (validSids : List Nat)
    (oldSid freshSid : Nat) (now : Nat) (profile : SamlProfile) : AcsOutcome :=
  let res := samlVerifyCallback users now profile
  { users := res.1
    validSids := (validSids.filter (fun s => s != oldSid)) ++ [freshSid]
    session := { sid := freshSid, isAuthenticated := true,
                 userEmail := some res.2.email } }

/-! ### Entity id generation (fmb-storage.ts: createProject line 254,
upsertUser insert branch line 168, createOrganization line 213,
createTask line 358, createTimeEntry line 461, createEmployee line 558,
createDepartment line 643, createProjectEmployee line 857). -/

/-- Id assigned by FmbStorage.createOrganization. -/
def fmbCreateOrganizationId (now : Nat) : String := "org-" ++ natDecimal now

/-- Id assigned by FmbStorage.createTask. -/
def fmbCreateTaskId (now : Nat) (rand : String) : String :=
  "task-" ++ natDecimal now ++ "-" ++ rand

/-- Id assigned by FmbStorage.createEmployee. -/
def fmbCreateEmployeeId (now : Nat) (rand : String) : String :=
  "emp-" ++ natDecimal now ++ "-" ++ rand

/-- Id assigned by FmbStorage.createDepartment. -/
def fmbCreateDepartmentId (now : Nat) (rand : String) : String :=
  "dept-" ++ natDecimal now ++ "-" ++ rand

/-- Id assigned by FmbStorage.createProjectEmployee. -/
def fmbCreateProjectEmployeeId (now : Nat) (rand : String) : String :=
  "pe-" ++ natDecimal now ++ "-" ++ rand

/-- A concrete environment: production mode reached through the npm build
step, with every required variable unset. -/
def envBuildProd : Env := fun v =>
  if v = "NODE_ENV" then some "production"
  else if v = "npm_lifecycle_event" then some "build"
  else none

/-- A concrete environment: production mode outside the build step, with
every required variable unset. -/
def envProdMissing : Env := fun v =>
  if v = "NODE_ENV" then some "production" else none

/-- A concrete environment: development mode with every required variable
unset. -/
def envDevMissing : Env := fun v =>
  if v = "NODE_ENV" then some "development" else none

/-- A concrete stored project row used to exercise the partial update:
the status column holds active, every other column holds a non-null
marker value. -/
def sampleProjectRow : DbRow := fun c =>
  if c = "status" then JsVal.str "active" else JsVal.str "keep"

/-!
## Theorems
-/

/-- Folding the digit accumulator over a decimal rendering recovers the
rendered number below the shifted accumulator. -/
theorem natDigits_foldl (n : Nat) : ∀ a : Nat,
    (natDigits n).foldl (fun a c => 10 * a + digitVal c) a =
      a * 10 ^ (natDigits n).length + n := by
  induction n using Nat.strong_induction_on with
  | _ n ih =>
    intro a
    rw [natDigits]
    by_cases h : n < 10
    · simp only [if_pos h, List.foldl, List.length]
      have hd : digitVal (Nat.digitChar n) = n := by
        interval_cases n <;> rfl
      rw [hd]
      ring
    · simp only [if_neg h]
      have hrec : n / 10 < n := Nat.div_lt_self (by omega) (by omega)
      have hmod : digitVal (Nat.digitChar (n % 10)) = n % 10 := by
        have : n % 10 < 10 := Nat.mod_lt _ (by omega)
        interval_cases hm : n % 10 <;> simp_all <;> rfl
      rw [List.foldl_append, ih (n / 10) hrec a]
      simp only [List.foldl, List.length_append, List.length]
      rw [hmod]
      have : a * 10 ^ ((natDigits (n / 10)).length + (0 + 1)) + n =
          10 * (a * 10 ^ (natDigits (n / 10)).length + n / 10) + n % 10 := by
        have hdm : 10 * (n / 10) + n % 10 = n := Nat.div_add_mod n 10
        ring_nf
        omega
      omega

/-- The decimal rendering of the millisecond clock is injective. -/
theorem natDecimal_injective : Function.Injective natDecimal := by
  intro m n h
  have hdig : natDigits m = natDigits n := congrArg String.data h
  have hm := natDigits_foldl m 0
  have hn := natDigits_foldl n 0
  rw [hdig] at hm
  rw [hm] at hn
  omega

/-- Appending to a fixed string on the left is injective. -/
theorem string_append_left_cancel (p a b : String) (h : p ++ a = p ++ b) :
    a = b := by
  apply String.ext
  have hd := congrArg String.data h
  rw [String.data_append, String.data_append] at hd
  exact List.append_cancel_left hd

/-- C1: while the configuration reports production mode (NODE_ENV is the
string production), the development bypass branch of the isAuthenticated
middleware is never taken, and any request lacking a valid authenticated
session receives a 401 response. -/
theorem c1_prod_mode_never_bypasses (nodeEnv : String) (r : AuthRequest)
    (hprod : nodeEnv = "production") :
    fmbDevIsAuthenticated nodeEnv r ≠ AuthOutcome.bypassNext ∧
      ((r.isAuth = false ∨ r.hasUser = false) →
        fmbDevIsAuthenticated nodeEnv r = AuthOutcome.unauthorized) := by
  subst hprod
  have h1 : ¬ (("production" : String) = "development" ∧
      (r.isAuth = false ∨ r.hasUser = false)) := by
    rintro ⟨hcontra, -⟩
    exact absurd hcontra (by decide)
  unfold fmbDevIsAuthenticated
  rw [if_neg h1]
  constructor
  · by_cases h2 : r.isAuth = false ∨ r.hasUser = false
    · rw [if_pos h2]; intro hcontra; exact AuthOutcome.noConfusion hcontra
    · rw [if_neg h2]; intro hcontra; exact AuthOutcome.noConfusion hcontra
  · intro h2
    rw [if_pos h2]

/-- Witness for C1 at a concrete unauthenticated request. -/
theorem c1_prod_mode_never_bypasses_witness :
    fmbDevIsAuthenticated "production" ⟨false, false⟩ ≠ AuthOutcome.bypassNext ∧
      fmbDevIsAuthenticated "production" ⟨false, false⟩ = AuthOutcome.unauthorized :=
  ⟨(c1_prod_mode_never_bypasses "production" ⟨false, false⟩ rfl).1,
    (c1_prod_mode_never_bypasses "production" ⟨false, false⟩ rfl).2 (Or.inl rfl)⟩

/-- Replacing the found row by one with the same id keeps it the row the
lookup returns. -/
theorem find_updateRole (id r : String) (u : UserRow) :
    ∀ users : List UserRow,
    users.find? (fun v => v.id == id) = some u →
    (users.map (fun v => if v.id == id then { u with role := r } else v)).find?
      (fun v => v.id == id) = some { u with role := r } := by
  intro users
  induction users with
  | nil => intro h; simp at h
  | cons hd tl ih =>
    intro h
    by_cases hh : (hd.id == id) = true
    · simp only [List.find?_cons, hh] at h
      injection h with h
      subst h
      have hid : (({ hd with role := r } : UserRow).id == id) = true := hh
      simp only [List.map_cons]
      rw [if_pos hh]
      exact List.find?_cons_of_pos _ hid
    · have hh2 : (hd.id == id) = false := by
        simpa using hh
      simp only [List.find?_cons, hh2] at h
      simp only [List.map_cons]
      rw [if_neg hh]
      refine Eq.trans (List.find?_cons_of_neg _ ?_) (ih h)
      exact hh

/-- C2: for the role-update endpoint, an admin targeting their own
account with a non-admin role receives 400 and the table (hence their
role) is unchanged; an admin targeting a different existing user with a
valid role succeeds with 200 and the target's role is updated; a caller
whose role is not admin receives 403 with the table unchanged. -/
theorem c2_admin_role_update (users : List UserRow)
    (currentUserId targetUserId r : String) :
    ((getUser users currentUserId).map (fun u => u.role) = some "admin" →
      currentUserId = targetUserId → r ≠ "admin" →
      adminUpdateUserRoleHandler users currentUserId targetUserId (some r) =
        { status := 400, users := users }) ∧
    ((getUser users currentUserId).map (fun u => u.role) = some "admin" →
      currentUserId ≠ targetUserId → r ∈ validRoles →
      (∃ t, getUser users targetUserId = some t) →
      (adminUpdateUserRoleHandler users currentUserId targetUserId (some r)).status
          = 200 ∧
        (getUser (adminUpdateUserRoleHandler users currentUserId targetUserId
            (some r)).users targetUserId).map (fun u => u.role) = some r) ∧
    ((getUser users currentUserId).map (fun u => u.role) ≠ some "admin" →
      ∀ role, adminUpdateUserRoleHandler users currentUserId targetUserId role =
        { status := 403, users := users }) := by
  refine ⟨?_, ?_, ?_⟩
  · intro hadmin hself hne
    subst hself
    unfold adminUpdateUserRoleHandler
    rw [if_neg (fun hcon => hcon hadmin)]
    dsimp only
    by_cases h1 : r = ""
    · rw [if_pos h1]
    · rw [if_neg h1]
      by_cases h2 : r ∉ validRoles
      · rw [if_pos h2]
      · rw [if_neg h2, if_pos ⟨rfl, hne⟩]
  · rintro hadmin hne hvalid ⟨t, ht⟩
    unfold adminUpdateUserRoleHandler
    rw [if_neg (fun hcon => hcon hadmin)]
    dsimp only
    have hr0 : ¬ r = "" := by
      rintro rfl
      exact absurd hvalid (by decide)
    rw [if_neg hr0, if_neg (not_not_intro hvalid),
      if_neg (fun hc : _ ∧ _ => hne hc.1)]
    unfold updateUserRole
    unfold getUser at ht
    rw [ht]
    dsimp only
    constructor
    · rfl
    · unfold getUser
      rw [find_updateRole targetUserId r t users ht]
      simp
  · intro hnotadmin role
    unfold adminUpdateUserRoleHandler
    rw [if_pos hnotadmin]

/-- Witness for C2 on a concrete three-user table: self-demotion by the
admin gives 400 and no change, promoting another user gives 200 and the
new role, and a viewer caller gets 403. -/
theorem c2_admin_role_update_witness :
    (adminUpdateUserRoleHandler
        [⟨"u1", "a@x", "A", "B", "admin"⟩, ⟨"u2", "b@x", "C", "D", "employee"⟩,
         ⟨"u3", "c@x", "E", "F", "viewer"⟩] "u1" "u1" (some "employee") =
      { status := 400,
        users := [⟨"u1", "a@x", "A", "B", "admin"⟩,
          ⟨"u2", "b@x", "C", "D", "employee"⟩,
          ⟨"u3", "c@x", "E", "F", "viewer"⟩] }) ∧
    ((adminUpdateUserRoleHandler
        [⟨"u1", "a@x", "A", "B", "admin"⟩, ⟨"u2", "b@x", "C", "D", "employee"⟩,
         ⟨"u3", "c@x", "E", "F", "viewer"⟩] "u1" "u2" (some "manager")).status
        = 200 ∧
      (getUser (adminUpdateUserRoleHandler
          [⟨"u1", "a@x", "A", "B", "admin"⟩, ⟨"u2", "b@x", "C", "D", "employee"⟩,
           ⟨"u3", "c@x", "E", "F", "viewer"⟩] "u1" "u2" (some "manager")).users
          "u2").map (fun u => u.role) = some "manager") ∧
    (adminUpdateUserRoleHandler
        [⟨"u1", "a@x", "A", "B", "admin"⟩, ⟨"u2", "b@x", "C", "D", "employee"⟩,
         ⟨"u3", "c@x", "E", "F", "viewer"⟩] "u3" "u2" (some "employee") =
      { status := 403,
        users := [⟨"u1", "a@x", "A", "B", "admin"⟩,
          ⟨"u2", "b@x", "C", "D", "employee"⟩,
          ⟨"u3", "c@x", "E", "F", "viewer"⟩] }) :=
  ⟨(c2_admin_role_update
      [⟨"u1", "a@x", "A", "B", "admin"⟩, ⟨"u2", "b@x", "C", "D", "employee"⟩,
       ⟨"u3", "c@x", "E", "F", "viewer"⟩] "u1" "u1" "employee").1
      (by decide) rfl (by decide),
   (c2_admin_role_update
      [⟨"u1", "a@x", "A", "B", "admin"⟩, ⟨"u2", "b@x", "C", "D", "employee"⟩,
       ⟨"u3", "c@x", "E", "F", "viewer"⟩] "u1" "u2" "manager").2.1
      (by decide) (by decide) (by decide)
      ⟨⟨"u2", "b@x", "C", "D", "employee"⟩, by decide⟩,
   (c2_admin_role_update
      [⟨"u1", "a@x", "A", "B", "admin"⟩, ⟨"u2", "b@x", "C", "D", "employee"⟩,
       ⟨"u3", "c@x", "E", "F", "viewer"⟩] "u3" "u2" "employee").2.2
      (by decide) (some "employee")⟩

/-- C3 counterexample: a create-project request whose end date precedes
its start date (authorized role, otherwise valid payload) is not
rejected with 400: schema validation does not compare the dates, the
INSERT fails on the CHECK constraint, and the handler replies 500. -/
theorem c3_end_before_start_counterexample :
    postProjectsHandler "admin" 0 []
        { name := "Audit", status := none, startDate := some 100,
          endDate := some 50 } = (500, []) ∧ (500 : Nat) ≠ 400 := by
  constructor
  · rfl
  · decide

/-- C3 (amended): a create-project request with both dates present and
end date strictly before start date, issued by an authorized role with a
payload that passes schema validation, is rejected with status 500 (the
end at least start invariant is enforced at the storage layer by the
CHK_projects_dates constraint, not by the 400 validation path) and no
project row is persisted. -/
theorem c3_end_before_start_rejected (userRole : String) (now : Nat)
    (db : List ProjectRow) (payload : InsertProjectPayload) (s e : Int)
    (hrole : userRole ∈ ["admin", "project_manager"])
    (hs : payload.startDate = some s) (he : payload.endDate = some e)
    (hlt : e < s) (hname : ¬ payload.name = "")
    (hstatus : ∀ st, payload.status = some st → st ∈ projectStatuses) :
    postProjectsHandler userRole now db payload = (500, db) := by
  have hchk : chkProjectDates (some s) (some e) = false := by
    unfold chkProjectDates
    simp only [decide_eq_false_iff_not]
    omega
  unfold postProjectsHandler
  rw [if_neg (not_not_intro hrole)]
  unfold insertProjectSchemaParse
  rw [if_neg hname]
  cases hst : payload.status with
  | none =>
    dsimp only
    unfold dbInsertProject
    dsimp only
    rw [hs, he, hchk]
    simp
  | some st =>
    dsimp only
    rw [if_pos (hstatus st hst)]
    dsimp only
    unfold dbInsertProject
    dsimp only
    rw [hs, he, hchk]
    simp

/-- Witness for C3 (amended) at the concrete counterexample payload. -/
theorem c3_end_before_start_rejected_witness :
    postProjectsHandler "admin" 0 []
        { name := "Audit", status := none, startDate := some 100,
          endDate := some 50 } = (500, []) :=
  c3_end_before_start_rejected "admin" 0 []
    { name := "Audit", status := none, startDate := some 100, endDate := some 50 }
    100 50 (by decide) rfl rfl (by decide) (by decide)
    (fun st h => Option.noConfusion h)

/-- C4: on a store holding exactly the targeted row, deleteTimeEntry
removes the row yet completes with the JavaScript undefined instead of a
boolean, so the DELETE route's not-found check treats the successful
delete as a miss and replies 404. -/
theorem c4_delete_returns_no_boolean :
    fmbDeleteTimeEntry [⟨"te-1", "u1", 8⟩] "te-1" = ([], JsVal.undef) ∧
      deleteTimeEntryRoute [⟨"te-1", "u1", 8⟩] "te-1" = (404, []) := by
  constructor
  · rfl
  · rfl

/-- C5: a session-store get for an id with no matching row, or whose
matching rows all have an expiry strictly in the past, yields the same
no-session result callback(null, null) in both cases; the cleanup pass
removes every row whose expiry is strictly in the past and keeps every
row that is not expired. -/
theorem c5_session_get_expiry_cleanup (table : List SessionRow) (now : Nat)
    (sid : String) :
    ((∀ r ∈ table, r.sid ≠ sid) →
      sessionStoreGet true table now sid = SessionGetResult.noSession) ∧
    ((∀ r ∈ table, r.sid = sid → ∃ e, r.expires = some e ∧ e < now) →
      sessionStoreGet true table now sid = SessionGetResult.noSession) ∧
    (∀ r ∈ table, (∃ e, r.expires = some e ∧ e < now) →
      r ∉ (cleanupExpiredSessions true table now).1) ∧
    (∀ r ∈ table, sessionExpired now r = false →
      r ∈ (cleanupExpiredSessions true table now).1) := by
  refine ⟨?_, ?_, ?_, ?_⟩
  · intro h
    unfold sessionStoreGet
    rw [if_neg (by simp)]
    have hf : table.find? (fun r => r.sid == sid && sessionNotExpired now r)
        = none := by
      rw [List.find?_eq_none]
      intro r hr
      simp only [Bool.and_eq_true, beq_iff_eq, not_and]
      intro hsid
      exact absurd hsid (h r hr)
    rw [hf]
  · intro h
    unfold sessionStoreGet
    rw [if_neg (by simp)]
    have hf : table.find? (fun r => r.sid == sid && sessionNotExpired now r)
        = none := by
      rw [List.find?_eq_none]
      intro r hr
      simp only [Bool.and_eq_true, beq_iff_eq, not_and]
      intro hsid
      obtain ⟨e, he, hlt⟩ := h r hr hsid
      unfold sessionNotExpired
      rw [he]
      simp
      omega
    rw [hf]
  · rintro r hr ⟨e, he, hlt⟩ hmem
    unfold cleanupExpiredSessions at hmem
    rw [if_neg (by simp)] at hmem
    dsimp only at hmem
    rw [List.mem_filter] at hmem
    have hexp : sessionExpired now r = true := by
      unfold sessionExpired
      rw [he]
      simpa using hlt
    rw [hexp] at hmem
    simp at hmem
  · intro r hr hexp
    unfold cleanupExpiredSessions
    rw [if_neg (by simp)]
    dsimp only
    rw [List.mem_filter]
    exact ⟨hr, by rw [hexp]; rfl⟩

/-- Witness for C5 on a concrete two-row table at clock 10: a missing id
and an id whose row expired at 5 both yield no-session, the expired row
is removed by cleanup, and the non-expiring row is kept. -/
theorem c5_session_get_expiry_cleanup_witness :
    sessionStoreGet true [⟨"s1", "d1", some 5⟩, ⟨"s2", "d2", none⟩] 10 "nosuch"
        = SessionGetResult.noSession ∧
    sessionStoreGet true [⟨"s1", "d1", some 5⟩, ⟨"s2", "d2", none⟩] 10 "s1"
        = SessionGetResult.noSession ∧
    (⟨"s1", "d1", some 5⟩ : SessionRow) ∉
      (cleanupExpiredSessions true [⟨"s1", "d1", some 5⟩, ⟨"s2", "d2", none⟩] 10).1 ∧
    (⟨"s2", "d2", none⟩ : SessionRow) ∈
      (cleanupExpiredSessions true [⟨"s1", "d1", some 5⟩, ⟨"s2", "d2", none⟩] 10).1 :=
  ⟨(c5_session_get_expiry_cleanup
      [⟨"s1", "d1", some 5⟩, ⟨"s2", "d2", none⟩] 10 "nosuch").1 (by decide),
   (c5_session_get_expiry_cleanup
      [⟨"s1", "d1", some 5⟩, ⟨"s2", "d2", none⟩] 10 "s1").2.1
      (by
        intro r hr hsid
        simp only [List.mem_cons, List.mem_singleton] at hr
        rcases hr with rfl | rfl | h
        · exact ⟨5, rfl, by omega⟩
        · exact absurd hsid (by decide)
        · exact absurd h (List.not_mem_nil _)),
   (c5_session_get_expiry_cleanup
      [⟨"s1", "d1", some 5⟩, ⟨"s2", "d2", none⟩] 10 "s1").2.2.1
      ⟨"s1", "d1", some 5⟩ (by decide) ⟨5, rfl, by omega⟩,
   (c5_session_get_expiry_cleanup
      [⟨"s1", "d1", some 5⟩, ⟨"s2", "d2", none⟩] 10 "s1").2.2.2
      ⟨"s2", "d2", none⟩ (by decide) (by decide)⟩

/-- Folding SET clauses whose columns all differ from k leaves column k
unchanged. -/
theorem foldl_setColumn_frame (k : String) :
    ∀ (l : List (String × JsVal)) (row : DbRow),
    (∀ kv ∈ l, toSnakeCase kv.1 ≠ k) →
    (l.foldl (fun r kv => setColumn r (toSnakeCase kv.1) kv.2) row) k = row k := by
  intro l
  induction l with
  | nil => intro row _; rfl
  | cons hd tl ih =>
    intro row h
    simp only [List.foldl_cons]
    rw [ih _ (fun kv hkv => h kv (List.mem_cons_of_mem hd hkv))]
    unfold setColumn
    exact if_neg (fun he => (h hd (List.mem_cons_self hd tl)) he.symm)

/-- Folding SET clauses with pairwise distinct columns writes each
entry's value into its column. -/
theorem foldl_setColumn_set (k : String) :
    ∀ (l : List (String × JsVal)) (row : DbRow) (key : String) (v : JsVal),
    (key, v) ∈ l → toSnakeCase key = k →
    (l.map (fun kv => toSnakeCase kv.1)).Nodup →
    (l.foldl (fun r kv => setColumn r (toSnakeCase kv.1) kv.2) row) k = v := by
  intro l
  induction l with
  | nil => intro row key v hmem _ _; exact absurd hmem (List.not_mem_nil _)
  | cons hd tl ih =>
    intro row key v hmem hk hnodup
    simp only [List.map_cons, List.nodup_cons] at hnodup
    simp only [List.foldl_cons]
    rcases List.mem_cons.mp hmem with heq | hmem'
    · have hfr : ∀ kv ∈ tl, toSnakeCase kv.1 ≠ k := by
        intro kv hkv hcol
        apply hnodup.1
        rw [← heq, hk, ← hcol]
        exact List.mem_map_of_mem (fun kv => toSnakeCase kv.1) hkv
      rw [foldl_setColumn_frame k tl _ hfr]
      unfold setColumn
      rw [← heq]
      exact if_pos hk.symm
    · exact ih _ key v hmem' hk hnodup.2

/-- C6: the partial project update modifies only the columns named by
defined payload entries (together with the storage-maintained updated_at
timestamp, which is not a payload field): any other column keeps its
previous value after the re-fetch — in particular an absent field is
never set to null — and when the defined payload keys map to pairwise
distinct columns, each defined entry's column carries exactly the
payload's value. -/
theorem c6_partial_update_only_defined_fields (row : DbRow)
    (payload : List (String × JsVal)) (now : JsVal) :
    (∀ k, k ≠ "updated_at" →
      (∀ kv ∈ payload, kv.2 ≠ JsVal.undef → toSnakeCase kv.1 ≠ k) →
      fmbUpdateProject row payload now k = row k ∧
        (row k ≠ JsVal.null → fmbUpdateProject row payload now k ≠ JsVal.null)) ∧
    (∀ key v, (key, v) ∈ payload → v ≠ JsVal.undef →
      toSnakeCase key ≠ "updated_at" →
      ((payload.filter (fun kv => kv.2 != JsVal.undef)).map
        (fun kv => toSnakeCase kv.1)).Nodup →
      fmbUpdateProject row payload now (toSnakeCase key) = v) := by
  constructor
  · intro k hk habs
    have hframe : fmbUpdateProject row payload now k = row k := by
      unfold fmbUpdateProject
      by_cases hemp : (List.filter (fun kv => kv.2 != JsVal.undef) payload).isEmpty
      · rw [if_pos hemp]
      · rw [if_neg hemp]
        unfold setColumn
        rw [if_neg hk]
        apply foldl_setColumn_frame
        intro kv hkv
        rw [List.mem_filter] at hkv
        exact habs kv hkv.1 (by simpa using hkv.2)
    refine ⟨hframe, fun hnull => ?_⟩
    rw [hframe]
    exact hnull
  · intro key v hmem hv hupd hnodup
    have hmemf : (key, v) ∈ List.filter (fun kv => kv.2 != JsVal.undef) payload :=
      List.mem_filter.mpr ⟨hmem, by simpa using hv⟩
    unfold fmbUpdateProject
    rw [if_neg (by
      intro hemp
      rw [List.isEmpty_iff] at hemp
      rw [hemp] at hmemf
      exact absurd hmemf (List.not_mem_nil _))]
    unfold setColumn
    rw [if_neg hupd]
    exact foldl_setColumn_set (toSnakeCase key) _ row key v hmemf rfl hnodup

/-- Witness for C6: updating only the status of a concrete row leaves
the name column untouched and non-null and stores the new status. -/
theorem c6_partial_update_only_defined_fields_witness :
    (fmbUpdateProject sampleProjectRow [("status", JsVal.str "completed")]
        (JsVal.str "t1") "name" = sampleProjectRow "name" ∧
      (sampleProjectRow "name" ≠ JsVal.null →
        fmbUpdateProject sampleProjectRow [("status", JsVal.str "completed")]
          (JsVal.str "t1") "name" ≠ JsVal.null)) ∧
    fmbUpdateProject sampleProjectRow [("status", JsVal.str "completed")]
        (JsVal.str "t1") (toSnakeCase "status") = JsVal.str "completed" :=
  ⟨(c6_partial_update_only_defined_fields sampleProjectRow
      [("status", JsVal.str "completed")] (JsVal.str "t1")).1 "name"
      (by decide) (by decide),
   (c6_partial_update_only_defined_fields sampleProjectRow
      [("status", JsVal.str "completed")] (JsVal.str "t1")).2 "status"
      (JsVal.str "completed") (by decide) (by decide) (by decide) (by decide)⟩

/-- C7: a create-time-entry payload whose hours exceed 24 or are negative
is rejected with 400 and no row is persisted, while a payload whose other
fields are valid and whose hours are exactly 24 or exactly 0 passes
validation and is persisted with 201 — the 0 to 24 bound is inclusive at
both ends. -/
theorem c7_hours_bound_inclusive (db : List TimeEntryRow) (now : Nat)
    (rand : String) (p : InsertTimeEntryPayload) :
    ((24 < p.hours ∨ p.hours < 0) →
      postTimeEntriesHandler db now rand p = (400, db)) ∧
    (p.userId ≠ "" → (0 : Rat) ≤ p.duration → p.date ≠ "" →
      (∀ st, p.status = some st → st ∈ timeEntryStatuses) →
      (p.hours = 24 ∨ p.hours = 0) →
      (postTimeEntriesHandler db now rand p).1 = 201) := by
  constructor
  · intro hout
    unfold postTimeEntriesHandler
    rw [if_neg ?hcheck]
    case hcheck =>
      intro hcon
      unfold insertTimeEntrySchemaCheck at hcon
      simp only [Bool.and_eq_true, decide_eq_true_eq] at hcon
      obtain ⟨⟨⟨⟨⟨-, h0⟩, h24⟩, -⟩, -⟩, -⟩ := hcon
      rcases hout with h | h
      · exact absurd h24 (not_le.mpr h)
      · exact absurd h0 (not_le.mpr h)
  · intro huid hdur hdate hstatus hbound
    unfold postTimeEntriesHandler
    rw [if_pos ?hcheck]
    case hcheck =>
      unfold insertTimeEntrySchemaCheck
      simp only [Bool.and_eq_true, decide_eq_true_eq, bne_iff_ne]
      refine ⟨⟨⟨⟨⟨huid, ?_⟩, ?_⟩, hdur⟩, hdate⟩, ?_⟩
      · rcases hbound with h | h <;> simp [h]
      · rcases hbound with h | h <;> simp [h]
      · cases hst : p.status with
        | none => rfl
        | some st =>
          exact List.elem_eq_true_of_mem (hstatus st hst)

/-- Witness for C7: hours 25 is rejected with 400 and nothing persisted,
hours 24 and hours 0 are accepted with 201. -/
theorem c7_hours_bound_inclusive_witness :
    postTimeEntriesHandler [] 0 "r"
        { userId := "u1", hours := 25, duration := 1, date := "2024-01-01",
          status := none } = (400, []) ∧
    (postTimeEntriesHandler [] 0 "r"
        { userId := "u1", hours := 24, duration := 1, date := "2024-01-01",
          status := none }).1 = 201 ∧
    (postTimeEntriesHandler [] 0 "r"
        { userId := "u1", hours := 0, duration := 1, date := "2024-01-01",
          status := none }).1 = 201 :=
  ⟨(c7_hours_bound_inclusive [] 0 "r"
      { userId := "u1", hours := 25, duration := 1, date := "2024-01-01",
        status := none }).1 (Or.inl (by norm_num)),
   (c7_hours_bound_inclusive [] 0 "r"
      { userId := "u1", hours := 24, duration := 1, date := "2024-01-01",
        status := none }).2 (by decide) (by norm_num) (by decide)
      (fun st h => Option.noConfusion h) (Or.inl rfl),
   (c7_hours_bound_inclusive [] 0 "r"
      { userId := "u1", hours := 0, duration := 1, date := "2024-01-01",
        status := none }).2 (by decide) (by norm_num) (by decide)
      (fun st h => Option.noConfusion h) (Or.inr rfl)⟩

/-- C8 counterexample: an environment in production mode reached through
the npm build step with every required variable absent makes the loader
succeed with the development defaults instead of failing. -/
theorem c8_build_skip_counterexample :
    (fmbRequiredVars.filter (fun v => !(envTruthy envBuildProd v))) ≠ [] ∧
      envBuildProd "NODE_ENV" = some "production" ∧
      loadFmbOnPremConfig envBuildProd =
        Except.ok (createDefaultConfig envBuildProd) := by
  refine ⟨by decide, rfl, rfl⟩

/-- C8 (amended): outside the npm build step, configuration loading is
total and mode-dependent: with any required variable absent, production
mode fails with an error naming exactly the missing variables, while
development mode succeeds with the safe defaults. -/
theorem c8_config_loading_mode_dependent (env : Env)
    (hbuild : env "npm_lifecycle_event" ≠ some "build") :
    ((fmbRequiredVars.filter (fun v => !(envTruthy env v))) ≠ [] →
      env "NODE_ENV" = some "production" →
      loadFmbOnPremConfig env =
        Except.error ("Missing required FMB environment variables: " ++
          String.intercalate ", "
            (fmbRequiredVars.filter (fun v => !(envTruthy env v))))) ∧
    ((fmbRequiredVars.filter (fun v => !(envTruthy env v))) ≠ [] →
      env "NODE_ENV" = some "development" →
      loadFmbOnPremConfig env = Except.ok (createDefaultConfig env)) := by
  constructor
  · intro hmissing hprod
    unfold loadFmbOnPremConfig
    rw [if_neg hbuild]
    dsimp only
    rw [if_neg (by
      intro hemp
      rw [List.isEmpty_iff] at hemp
      exact hmissing hemp)]
    rw [if_neg (by
      rw [hprod]
      intro hcon
      exact absurd (Option.some.inj hcon) (by decide))]
  · intro hmissing hdev
    unfold loadFmbOnPremConfig
    rw [if_neg hbuild]
    dsimp only
    rw [if_neg (by
      intro hemp
      rw [List.isEmpty_iff] at hemp
      exact hmissing hemp)]
    rw [if_pos hdev]

/-- Witness for C8 (amended) at two concrete environments with all
required variables absent: production fails naming all eight variables,
development succeeds with the defaults. -/
theorem c8_config_loading_mode_dependent_witness :
    loadFmbOnPremConfig envProdMissing =
      Except.error ("Missing required FMB environment variables: " ++
        String.intercalate ", "
          (fmbRequiredVars.filter (fun v => !(envTruthy envProdMissing v)))) ∧
    loadFmbOnPremConfig envDevMissing =
      Except.ok (createDefaultConfig envDevMissing) :=
  ⟨(c8_config_loading_mode_dependent envProdMissing (by decide)).1
      (by decide) rfl,
   (c8_config_loading_mode_dependent envDevMissing (by decide)).2
      (by decide) rfl⟩

/-- C9 counterexample: the SAML verify callback of the active on-premises
authentication module upserts a first-time user with the default role
string user, not employee. -/
theorem c9_default_role_counterexample :
    ((samlVerifyCallback [] 5
        { nameID := "alice@fmb.com", email := none, firstName := none,
          givenName := none, lastName := none, surname := none }).2).role
        = "user" ∧ ("user" : String) ≠ "employee" := by
  refine ⟨rfl, by decide⟩

/-- C9 (amended): a successful SAML assertion callback whose email
matches no local user upserts a new user row keyed by email whose role
is the fixed string user (a value outside the declared role
enumeration), and establishes an authenticated session under a freshly
regenerated session id while the pre-authentication session id is no
longer recognised. -/
theorem c9_saml_first_login (users : List UserRow) (validSids : List Nat)
    (oldSid freshSid now : Nat) (profile : SamlProfile)
    (hfresh : freshSid ≠ oldSid)
    (hnew : ∀ u ∈ users, u.email ≠ jsStrOr profile.email profile.nameID) :
    (∃ newUser,
      (samlAcsCallback users validSids oldSid freshSid now profile).users =
        users ++ [newUser] ∧
      newUser.email = jsStrOr profile.email profile.nameID ∧
      newUser.id = fmbUpsertUserInsertId now ∧
      newUser.role = "user") ∧
    oldSid ∉ (samlAcsCallback users validSids oldSid freshSid now profile).validSids ∧
    freshSid ∈ (samlAcsCallback users validSids oldSid freshSid now profile).validSids ∧
    (samlAcsCallback users validSids oldSid freshSid now profile).session.isAuthenticated
        = true ∧
    (samlAcsCallback users validSids oldSid freshSid now profile).session.sid
        = freshSid := by
  have hfind : getUserByEmail users (jsStrOr profile.email profile.nameID) = none := by
    unfold getUserByEmail
    rw [List.find?_eq_none]
    intro u hu
    simpa using hnew u hu
  refine ⟨?_, ?_, ?_, rfl, rfl⟩
  · unfold samlAcsCallback samlVerifyCallback fmbUpsertUser
    dsimp only
    rw [hfind]
    exact ⟨_, rfl, rfl, rfl, rfl⟩
  · unfold samlAcsCallback
    dsimp only
    rw [List.mem_append]
    rintro (hmem | hmem)
    · rw [List.mem_filter] at hmem
      simp at hmem
    · rw [List.mem_singleton] at hmem
      exact hfresh hmem.symm
  · unfold samlAcsCallback
    dsimp only
    rw [List.mem_append]
    right
    exact List.mem_singleton.mpr rfl

/-- Witness for C9 (amended): a first login against an empty users table
with pre-session id 7 and fresh id 8. -/
theorem c9_saml_first_login_witness :
    (∃ newUser,
      (samlAcsCallback [] [7] 7 8 5
          { nameID := "alice@fmb.com", email := none, firstName := none,
            givenName := none, lastName := none, surname := none }).users =
        [] ++ [newUser] ∧
      newUser.email = jsStrOr none "alice@fmb.com" ∧
      newUser.id = fmbUpsertUserInsertId 5 ∧
      newUser.role = "user") ∧
    7 ∉ (samlAcsCallback [] [7] 7 8 5
        { nameID := "alice@fmb.com", email := none, firstName := none,
          givenName := none, lastName := none, surname := none }).validSids ∧
    8 ∈ (samlAcsCallback [] [7] 7 8 5
        { nameID := "alice@fmb.com", email := none, firstName := none,
          givenName := none, lastName := none, surname := none }).validSids ∧
    (samlAcsCallback [] [7] 7 8 5
        { nameID := "alice@fmb.com", email := none, firstName := none,
          givenName := none, lastName := none, surname := none }).session.isAuthenticated
        = true ∧
    (samlAcsCallback [] [7] 7 8 5
        { nameID := "alice@fmb.com", email := none, firstName := none,
          givenName := none, lastName := none, surname := none }).session.sid = 8 :=
  c9_saml_first_login [] [7] 7 8 5
    { nameID := "alice@fmb.com", email := none, firstName := none,
      givenName := none, lastName := none, surname := none }
    (by decide) (fun u hu => absurd hu (List.not_mem_nil u))

/-- C10 counterexample: task ids are not pure functions of the
millisecond clock either — two createTask calls in the same millisecond
with different random suffixes produce different ids, so time-entry ids
are not the only ones carrying a random suffix. -/
theorem c10_task_ids_random_counterexample :
    fmbCreateTaskId 7 "aaa" ≠ fmbCreateTaskId 7 "bbb" := by
  intro h
  have := string_append_left_cancel _ _ _ h
  exact absurd this (by decide)

/-- C10 (amended): project, user and organization ids are pure functions
of the creation-time millisecond clock — equal exactly when the clocks
are equal, so distinct milliseconds give distinct ids and the same
millisecond repeats the id — while time-entry, task, employee,
department and project-employee ids additionally carry a random suffix
on which they depend. -/
theorem c10_id_generation (t1 t2 now : Nat) (r1 r2 : String) :
    (fmbCreateProjectId t1 = fmbCreateProjectId t2 ↔ t1 = t2) ∧
    (fmbUpsertUserInsertId t1 = fmbUpsertUserInsertId t2 ↔ t1 = t2) ∧
    (fmbCreateOrganizationId t1 = fmbCreateOrganizationId t2 ↔ t1 = t2) ∧
    (r1 ≠ r2 → fmbCreateTimeEntryId now r1 ≠ fmbCreateTimeEntryId now r2) ∧
    (r1 ≠ r2 → fmbCreateTaskId now r1 ≠ fmbCreateTaskId now r2) ∧
    (r1 ≠ r2 → fmbCreateEmployeeId now r1 ≠ fmbCreateEmployeeId now r2) ∧
    (r1 ≠ r2 → fmbCreateDepartmentId now r1 ≠ fmbCreateDepartmentId now r2) ∧
    (r1 ≠ r2 →
      fmbCreateProjectEmployeeId now r1 ≠ fmbCreateProjectEmployeeId now r2) := by
  refine ⟨?_, ?_, ?_, ?_, ?_, ?_, ?_, ?_⟩
  · constructor
    · intro h
      exact natDecimal_injective (string_append_left_cancel _ _ _ h)
    · intro h
      rw [h]
  · constructor
    · intro h
      exact natDecimal_injective (string_append_left_cancel _ _ _ h)
    · intro h
      rw [h]
  · constructor
    · intro h
      exact natDecimal_injective (string_append_left_cancel _ _ _ h)
    · intro h
      rw [h]
  · intro hne h
    exact hne (string_append_left_cancel _ _ _ h)
  · intro hne h
    exact hne (string_append_left_cancel _ _ _ h)
  · intro hne h
    exact hne (string_append_left_cancel _ _ _ h)
  · intro hne h
    exact hne (string_append_left_cancel _ _ _ h)
  · intro hne h
    exact hne (string_append_left_cancel _ _ _ h)

/-- Witness for C10 (amended) at concrete clocks and random suffixes. -/
theorem c10_id_generation_witness :
    (fmbCreateProjectId 12 = fmbCreateProjectId 13 ↔ (12 : Nat) = 13) ∧
    fmbCreateTimeEntryId 7 "aa" ≠ fmbCreateTimeEntryId 7 "ab" ∧
    fmbCreateTaskId 7 "aa" ≠ fmbCreateTaskId 7 "ab" ∧
    fmbCreateEmployeeId 7 "aa" ≠ fmbCreateEmployeeId 7 "ab" ∧
    fmbCreateDepartmentId 7 "aa" ≠ fmbCreateDepartmentId 7 "ab" ∧
    fmbCreateProjectEmployeeId 7 "aa" ≠ fmbCreateProjectEmployeeId 7 "ab" :=
  ⟨(c10_id_generation 12 13 7 "aa" "ab").1,
   (c10_id_generation 12 13 7 "aa" "ab").2.2.2.1 (by decide),
   (c10_id_generation 12 13 7 "aa" "ab").2.2.2.2.1 (by decide),
   (c10_id_generation 12 13 7 "aa" "ab").2.2.2.2.2.1 (by decide),
   (c10_id_generation 12 13 7 "aa" "ab").2.2.2.2.2.2.1 (by decide),
   (c10_id_generation 12 13 7 "aa" "ab").2.2.2.2.2.2.2 (by decide)⟩
